import Mathlib

/-!
Shallow embedding of `src/codemirror-adapter.ts` (the `CodeMirrorAdapter`
class of lsp-codemirror) and proofs about its behaviour.

JavaScript strings are modelled as `List Char`; JS `string` parameters of
the source functions take `List Char` here and string literals appear as
`"…".toList`.  Machine integers do not occur (all quantities are small
non-negative counts), so positions are `Nat`.  Code paths that throw a
`TypeError` at runtime are modelled with `Except String`.
-/

namespace LspCodeMirror

/-- JS `\w` character class (regex without the `u`-irrelevant cases here):
`[A-Za-z0-9_]`.  `Char.isAlphanum` is exactly ASCII letters and digits. -/
def isWordChar (c : Char) : Bool :=
  c.isAlphanum || c = '_'

/-- JS `/\W/.test(s)`: true iff the string contains a non-word character. -/
def testNonWord (l : List Char) : Bool :=
  l.any (fun c => !(isWordChar c))

/-- JS `String.prototype.toLowerCase` / `toLocaleLowerCase` (ASCII data in
all inputs considered here). -/
def jsToLower (l : List Char) : List Char :=
  l.map Char.toLower

/-- JS `String.prototype.startsWith`. -/
def startsWithL : List Char → List Char → Bool
  | _, [] => true
  | [], _ :: _ => false
  | c :: cs, d :: ds => c = d && startsWithL cs ds

/-- JS `triggerWord.split(/\W+/)[0]`: splitting on maximal non-word runs
keeps a leading empty piece when the string starts with a non-word
character, so the element at index 0 is exactly the leading maximal run of
word characters (empty for a punctuation-initial or empty string). -/
def jsFirstWord (l : List Char) : List Char :=
  l.takeWhile isWordChar

/-- One LSP completion item, restricted to the fields
`_getFilteredCompletions` reads: `label` and the optional `filterText`. -/
structure CompletionItem where
  label : List Char
  filterText : Option (List Char) := none
deriving DecidableEq

/-- The sort comparator of `_getFilteredCompletions`:
`(labelA starts with word ? -1 : 1) + (labelB starts with word ? 1 : -1)`. -/
def completionCmp (word : List Char) (a b : CompletionItem) : Int :=
  (if startsWithL (jsToLower a.label) word then (-1 : Int) else 1) +
    (if startsWithL (jsToLower b.label) word then (1 : Int) else -1)

/-- Stable insertion used to model `Array.prototype.sort`: a later element
is placed after every already-placed element that does not compare
strictly greater. -/
def insertStable (le : CompletionItem → CompletionItem → Bool)
    (a : CompletionItem) : List CompletionItem → List CompletionItem
  | [] => [a]
  | b :: bs => if le b a then b :: insertStable le a bs else a :: b :: bs

/-- Source `Array.prototype.sort` with a consistent comparator: ECMAScript
requires a stable sort, and for a comparator that induces a total preorder
(ours partitions into "label matches the word" before "label does not")
every stable sort produces the same list, so a stable insertion sort is a
faithful model. -/
def jsSortStable (le : CompletionItem → CompletionItem → Bool)
    (l : List CompletionItem) : List CompletionItem :=
  l.foldl (fun acc a => insertStable le a acc) []

/-- The filter predicate inside `_getFilteredCompletions`.  Note the JS
truthiness guard `item.filterText && …`: an absent or empty `filterText`
falls through to the label branches. -/
def completionKeep (word : List Char) (canMatchWholeWord : Bool)
    (item : CompletionItem) : Bool :=
  let label := jsToLower item.label
  let filterTextHit :=
    match item.filterText with
    | some ft => !ft.isEmpty && startsWithL (jsToLower ft) word
    | none => false
  if filterTextHit then
    true
  else if canMatchWholeWord = false && label = word then
    false
  else
    startsWithL label word

/-- Source `CodeMirrorAdapter._getFilteredCompletions(triggerWord, items,
canMatchWholeWord)`.  `items` is `Option`al to model the JS `!items`
null/undefined guard. -/
def getFilteredCompletions (triggerWord : List Char)
    (items : Option (List CompletionItem)) (canMatchWholeWord : Bool) :
    List CompletionItem :=
  let firstWord := jsFirstWord triggerWord
  if testNonWord firstWord || items.isNone then
    []
  else
    let word := jsToLower firstWord
    let its := items.getD []
    jsSortStable
      (fun a b => decide (completionCmp word a b ≤ 0))
      (its.filter (completionKeep word canMatchWholeWord))

/-- A fully-filled configuration record, the shape of `this.options` after
`getFilledDefaults` ran (fields listed in the configuration surface that
the adapter reads). -/
structure FilledOptions where
  enableHoverInfo : Bool
  enableDiagnostics : Bool
  enableSignatures : Bool
  enableGutterMarks : Bool
  enableContextMenu : Bool
  suggest : Bool
  debounceSuggestionsWhileTyping : Nat
  quickSuggestionsDelay : Nat
  diagnosticMarkClassName : List Char
deriving DecidableEq

/-- Caller-supplied options: every recognized field may be absent. -/
structure ITextEditorOptions where
  enableHoverInfo : Option Bool := none
  enableDiagnostics : Option Bool := none
  enableSignatures : Option Bool := none
  enableGutterMarks : Option Bool := none
  enableContextMenu : Option Bool := none
  suggest : Option Bool := none
  debounceSuggestionsWhileTyping : Option Nat := none
  quickSuggestionsDelay : Option Nat := none
  diagnosticMarkClassName : Option (List Char) := none
deriving DecidableEq

/-- Modelled from the spec: `getFilledDefaults` lives in `src/types.ts`,
which is not among the sources; the spec describes it as a
"fill defaults then replace" merge over the recognized options
(feature toggles, debounce intervals, mark class name).  The concrete
default values are not specified anywhere, so the ones below are
placeholders; no theorem in this file depends on them. -/
def defaultOptions : FilledOptions where
  enableHoverInfo := true
  enableDiagnostics := true
  enableSignatures := true
  enableGutterMarks := true
  enableContextMenu := true
  suggest := true
  debounceSuggestionsWhileTyping := 200
  quickSuggestionsDelay := 200
  diagnosticMarkClassName := "cm-error".toList

/-- Modelled from the spec: fill each absent option with its default,
keep each supplied one. -/
def getFilledDefaults (o : ITextEditorOptions) : FilledOptions where
  enableHoverInfo := o.enableHoverInfo.getD defaultOptions.enableHoverInfo
  enableDiagnostics := o.enableDiagnostics.getD defaultOptions.enableDiagnostics
  enableSignatures := o.enableSignatures.getD defaultOptions.enableSignatures
  enableGutterMarks := o.enableGutterMarks.getD defaultOptions.enableGutterMarks
  enableContextMenu := o.enableContextMenu.getD defaultOptions.enableContextMenu
  suggest := o.suggest.getD defaultOptions.suggest
  debounceSuggestionsWhileTyping :=
    o.debounceSuggestionsWhileTyping.getD defaultOptions.debounceSuggestionsWhileTyping
  quickSuggestionsDelay :=
    o.quickSuggestionsDelay.getD defaultOptions.quickSuggestionsDelay
  diagnosticMarkClassName :=
    o.diagnosticMarkClassName.getD defaultOptions.diagnosticMarkClassName

/-- CodeMirror-style document position `{line, ch}`. -/
structure IPosition where
  line : Nat
  ch : Nat
deriving DecidableEq

/-- LSP protocol position `{line, character}`. -/
structure LspPosition where
  line : Nat
  character : Nat
deriving DecidableEq

/-- LSP protocol range.  The source field `end` is a Lean keyword and is
called `endPos` here (likewise in the other range-like records below). -/
structure LspRange where
  start : LspPosition
  endPos : LspPosition
deriving DecidableEq

/-- A text marker created by `editor.getDoc().markText(start, end,
{className})`. -/
structure TextMark where
  start : IPosition
  endPos : IPosition
  className : List Char
deriving DecidableEq

/-- Source `ICompletionTokenInfo` from `src/types.ts` as used by the adapter:
the token text plus its start/end positions. -/
structure ICompletionTokenInfo where
  text : List Char
  start : IPosition
  endPos : IPosition
deriving DecidableEq

/-- Source `ITokenInfo` as used for a diagnostics-tracker entry: an ordered list
of messages plus the shared range. -/
structure ITokenInfo where
  text : List String
  start : IPosition
  endPos : IPosition
deriving DecidableEq

/-- Source `lsProtocol.Diagnostic`, restricted to the fields `handleDiagnostic`
reads. -/
structure Diagnostic where
  range : LspRange
  message : String
deriving DecidableEq

/-- Source `lsProtocol.PublishDiagnosticsParams`, restricted to the fields read. -/
structure PublishDiagnosticsParams where
  uri : List Char
  diagnostics : List Diagnostic
deriving DecidableEq

/-- The mutable instance state of `CodeMirrorAdapter` that the verified
handlers touch, together with effect logs for the editor-surface and
connection calls they make.  `tooltip`/`signatureWidget` record whether
the corresponding DOM surface is currently mounted; `gutter` is the
per-line `CodeMirror-lsp` gutter (`setGutterMarker` keeps one marker per
line, the stored string is the marker element's `title`); `scrolledTo`
logs `editor.scrollIntoView` calls and `hoverRequests` logs
`debouncedGetHover` invocations. -/
structure AdapterState where
  options : FilledOptions
  hoverMarker : Option TextMark := none
  tooltip : Bool := false
  isShowingContextMenu : Bool := false
  signatureWidget : Bool := false
  markedDiagnostics : List TextMark := []
  diagnosticResults : List ITokenInfo := []
  highlightMarkers : List TextMark := []
  gutter : List (Nat × String) := []
  hoverCharacter : Option IPosition := none
  token : Option ICompletionTokenInfo := none
  hoverIntervalMs : Nat := 0
  changeIntervalMs : Nat := 0
  scrolledTo : List IPosition := []
  hoverRequests : List IPosition := []
deriving DecidableEq

/-- The constructor: fills defaults into `this.options` and builds
`debouncedGetHover` with interval `options.quickSuggestionsDelay`;
`_addListeners` then builds the debounced change listener with interval
`options.debounceSuggestionsWhileTyping`.  Both intervals are captured
here once and never rebuilt. -/
def mkAdapter (options : ITextEditorOptions) : AdapterState :=
  let filled := getFilledDefaults options
  { options := filled
    hoverIntervalMs := filled.quickSuggestionsDelay
    changeIntervalMs := filled.debounceSuggestionsWhileTyping }

/-- Source `_clearDiagnostics`: clear the `CodeMirror-lsp` gutter, clear every
marker in `markedDiagnostics` (those markers are exactly the diagnostic
text marks held by the editor), and empty both lists. -/
def clearDiagnostics (s : AdapterState) : AdapterState :=
  { s with gutter := [], markedDiagnostics := [], diagnosticResults := [] }

/-- Source `updateOptions`: refill defaults over the new options and, when
diagnostics became disabled, clear them.  The debounced handlers (and
hence the captured intervals) are not touched. -/
def updateOptions (s : AdapterState) (options : ITextEditorOptions) :
    AdapterState :=
  let s' := { s with options := getFilledDefaults options }
  if !s'.options.enableDiagnostics then clearDiagnostics s' else s'

/-- JS `code.split('\n')` on the character-list model. -/
def splitLines : List Char → List (List Char)
  | [] => [[]]
  | c :: cs =>
    match splitLines cs with
    | [] => [[]]
    | l :: ls => if c = '\n' then [] :: l :: ls else (c :: l) :: ls

/-- JS `line[i]` for a possibly out-of-range index: `undefined` is
`none`. -/
def jsCharAt (l : List Char) (i : Nat) : Option Char :=
  l.get? i

/-- JS `/\W/u.test(char)` where `char` may be `undefined`: `undefined` is
coerced to the string `"undefined"`, which contains only word
characters, so the test is false. -/
def testNonWordOpt : Option Char → Bool
  | none => false
  | some c => !(isWordChar c)

/-- The backward scan of `_getTokenEndingAtPosition`:
`let wordStartChar = 0; for (let i = ch-1; i >= 0; i--) { if
(/\W/u.test(line[i])) break; wordStartChar = i; }`.  The first argument
of `go` is one past the index currently examined. -/
def scanWordStart (line : List Char) (ch : Nat) : Nat :=
  go ch 0
where
  go : Nat → Nat → Nat
    | 0, acc => acc
    | i + 1, acc => if testNonWordOpt (jsCharAt line i) then acc else go i i

/-- JS `line.substr(start, len)`: `len` is a length, clamped at the end
of the string. -/
def jsSubstr (l : List Char) (start len : Nat) : List Char :=
  (l.drop start).take len

/-- Source `CodeMirrorAdapter._getTokenEndingAtPosition(code, location,
splitCharacters)`.  `splitCharacters` holds single-character strings in
the source and is a `List Char` here; the JS
`splitCharacters.indexOf(typedCharacter) > -1` test is membership, and is
false when `typedCharacter` is `undefined` (cursor at column 0 or past
the end of the line).  Accessing a `location.line` beyond the last line
would throw in JS; the model totalises it with the empty line. -/
def getTokenEndingAtPosition (code : List Char) (location : IPosition)
    (splitCharacters : List Char) : ICompletionTokenInfo :=
  let lines := splitLines code
  let line := lines.getD location.line []
  let typedCharacter : Option Char :=
    if location.ch = 0 then none else jsCharAt line (location.ch - 1)
  match typedCharacter with
  | some c =>
    if c ∈ splitCharacters then
      { text := [c]
        start := { line := location.line, ch := location.ch - 1 }
        endPos := location }
    else
      let wordStartChar := scanWordStart line location.ch
      { text := jsSubstr line wordStartChar location.ch
        start := { line := location.line, ch := wordStartChar }
        endPos := location }
  | none =>
    let wordStartChar := scanWordStart line location.ch
    { text := jsSubstr line wordStartChar location.ch
      start := { line := location.line, ch := wordStartChar }
      endPos := location }

/-- Convert an LSP position to a CodeMirror `{line, ch}` position, as the
adapter does inline at each use site. -/
def toCmPos (p : LspPosition) : IPosition :=
  { line := p.line, ch := p.character }

/-- Source `CodeMirror.setGutterMarker(line, 'CodeMirror-lsp', el)`: at most one
marker per line and gutter id; setting again replaces the element (whose
`title` is the diagnostic message). -/
def setGutterMarker (g : List (Nat × String)) (line : Nat) (title : String) :
    List (Nat × String) :=
  if g.any (fun p => p.1 = line) then
    g.map (fun p => if p.1 = line then (line, title) else p)
  else
    g ++ [(line, title)]

/-- The tracker update of `handleDiagnostic`: `findIndex` an entry with
the same `start`/`end` (lodash `isEqual` is structural equality); push the
message onto the first such entry, or append a fresh entry.  The
structural recursion here updates the first match exactly as
`findIndex` + index update does. -/
def mergeDiagnosticEntry (start endPos : IPosition) (msg : String) :
    List ITokenInfo → List ITokenInfo
  | [] => [{ text := [msg], start := start, endPos := endPos }]
  | r :: rs =>
    if r.start = start && r.endPos = endPos then
      { r with text := r.text ++ [msg] } :: rs
    else
      r :: mergeDiagnosticEntry start endPos msg rs

/-- The per-diagnostic body of the `forEach` in `handleDiagnostic`:
mark the range, merge the tracker entry, and (when gutter marks are
enabled) set the gutter marker for the start line. -/
def addDiagnostic (s : AdapterState) (d : Diagnostic) : AdapterState :=
  let start := toCmPos d.range.start
  let endPos := toCmPos d.range.endPos
  let s :=
    { s with
      markedDiagnostics :=
        s.markedDiagnostics ++
          [({ start := start, endPos := endPos
              className := s.options.diagnosticMarkClassName } : TextMark)] }
  let s :=
    { s with
      diagnosticResults :=
        mergeDiagnosticEntry start endPos d.message s.diagnosticResults }
  if s.options.enableGutterMarks then
    { s with gutter := setGutterMarker s.gutter start.line d.message }
  else
    s

/-- Source `CodeMirrorAdapter.handleDiagnostic(response)`: bail out when
diagnostics are disabled, otherwise clear and rebuild from scratch.
(The `lsp/diagnostics` CodeMirror signal it also emits carries no adapter
state and is not modelled.) -/
def handleDiagnostic (s : AdapterState)
    (response : PublishDiagnosticsParams) : AdapterState :=
  if !s.options.enableDiagnostics then
    s
  else
    response.diagnostics.foldl addDiagnostic (clearDiagnostics s)

/-- Source `_removeTooltip`: unmount the tooltip element if one is mounted and
drop the context-menu flag. -/
def removeTooltip (s : AdapterState) : AdapterState :=
  if s.tooltip then { s with tooltip := false, isShowingContextMenu := false }
  else s

/-- Source `_removeHover`: clear the hover text marker. -/
def removeHover (s : AdapterState) : AdapterState :=
  { s with hoverMarker := none }

/-- Source `_removeSignatureWidget`: clear the signature line widget, then remove
the tooltip if one was ever shown. -/
def removeSignatureWidget (s : AdapterState) : AdapterState :=
  removeTooltip { s with signatureWidget := false }

/-- Source `_unhighlightRanges`: clear every highlight marker. -/
def unhighlightRanges (s : AdapterState) : AdapterState :=
  { s with highlightMarkers := [] }

/-- Source `_highlightRanges(items)`: clear the old highlight set; when the new
list is nonempty, mark each range with the
`CodeMirror-lsp-highlight` class. -/
def highlightRanges (s : AdapterState) (items : List LspRange) :
    AdapterState :=
  let s := unhighlightRanges s
  if items.isEmpty then
    s
  else
    { s with
      highlightMarkers :=
        items.map fun r =>
          { start := toCmPos r.start, endPos := toCmPos r.endPos
            className := "CodeMirror-lsp-highlight".toList } }

/-- Source `editor.scrollIntoView(pos)`, logged as an effect. -/
def scrollIntoView (s : AdapterState) (pos : IPosition) : AdapterState :=
  { s with scrolledTo := s.scrolledTo ++ [pos] }

/-- Source `lsProtocol.Location`, restricted to the fields read. -/
structure Location where
  uri : List Char
  range : LspRange
deriving DecidableEq

/-- Source `lsProtocol.LocationLink`, restricted to the fields read. -/
structure LocationLink where
  targetUri : List Char
  targetRange : LspRange
deriving DecidableEq

/-- The `handleGoTo` payload `Location | Location[] | LocationLink[] |
null`.  A JS empty array satisfies `arr.every(Location.is)` and therefore
always takes the `Location[]` branch; it corresponds to `locArray []`
here. -/
inductive GoToInput where
  | null
  | single (l : Location)
  | locArray (ls : List Location)
  | linkArray (ls : List LocationLink)

/-- Source `CodeMirrorAdapter.handleGoTo(location)`.  `documentUri` is
`this.connection.getDocumentUri()`.  When the URI filter leaves an empty
array the source reads `locations[0].range` (resp. `targetRange`) of
`undefined` and throws a `TypeError`, modelled as `Except.error`; the
mixed-shape fall-through reaches `scrollIntoView(undefined)`, modelled as
not logging a scroll. -/
def handleGoTo (documentUri : List Char) (s : AdapterState)
    (location : GoToInput) : Except String AdapterState :=
  let s := removeTooltip s
  match location with
  | .null => .ok s
  | .single l =>
    if l.uri ≠ documentUri then
      .ok s
    else
      let s := highlightRanges s [l.range]
      .ok (scrollIntoView s (toCmPos l.range.start))
  | .locArray ls =>
    let locations := ls.filter fun l => l.uri = documentUri
    let s := highlightRanges s (locations.map (·.range))
    match locations with
    | [] => .error "TypeError: locations[0] is undefined"
    | l :: _ => .ok (scrollIntoView s (toCmPos l.range.start))
  | .linkArray ls =>
    let locations := ls.filter fun l => l.targetUri = documentUri
    let s := highlightRanges s (locations.map (·.targetRange))
    match locations with
    | [] => .error "TypeError: locations[0] is undefined"
    | l :: _ => .ok (scrollIntoView s (toCmPos l.targetRange.start))

/-- Source `lsProtocol.SignatureInformation`, restricted to the `label` field
the handler renders. -/
structure SignatureInformation where
  label : List Char
deriving DecidableEq

/-- Source `lsProtocol.SignatureHelp`; the `signatures` field is `Option`al to
model a malformed result object without one. -/
structure SignatureHelp where
  signatures : Option (List SignatureInformation)
deriving DecidableEq

/-- Source `_showTooltip`: tear down a previous context-menu tooltip, then mount
the new element and set `isShowingContextMenu` (the flag is set for every
tooltip, not only context menus).  The asynchronous repositioning on the
next animation frame does not change which surfaces are mounted. -/
def showTooltip (s : AdapterState) : AdapterState :=
  let s := if s.isShowingContextMenu then removeTooltip s else s
  { s with tooltip := true, isShowingContextMenu := true }

/-- Source `CodeMirrorAdapter.handleSignature(result)`.  The guard
`!this.options.enableSignatures || !result || !result.signatures.length
|| !this.token` short-circuits left to right; when `result` is an object
without a `signatures` field the third disjunct reads `length` of
`undefined` and throws, modelled as `Except.error`. -/
def handleSignature (s : AdapterState) (result : Option SignatureHelp) :
    Except String AdapterState :=
  let s := removeTooltip (removeSignatureWidget s)
  if !s.options.enableSignatures then
    .ok s
  else
    match result with
    | none => .ok s
    | some r =>
      match r.signatures with
      | none => .error "TypeError: undefined signatures has no length"
      | some sigs =>
        if sigs.isEmpty then
          .ok s
        else
          match s.token with
          | none => .ok s
          | some _ => .ok (showTooltip s)

/-- What the adapter observes about a `mousemove` event through the
editor surface: whether `editor.getTokenAt(coordsChar(ev))` has a
nonempty string (`_isEventOnCharacter`), whether the event target is the
tooltip element or an anchor (`_isEventOnTooltip` checks this only while
`isShowingContextMenu` is set), whether the target sits inside the
`CodeMirror` element (`_isEventInsideVisible`), and the document position
`coordsChar` resolves. -/
structure MouseEventInfo where
  onCharacter : Bool
  targetIsTooltip : Bool
  insideVisible : Bool
  docPosition : IPosition
deriving DecidableEq

/-- Source `_isEventOnTooltip`: returns (a falsy) `undefined` unless the context
menu flag is set. -/
def isEventOnTooltip (s : AdapterState) (ev : MouseEventInfo) : Bool :=
  s.isShowingContextMenu && ev.targetIsTooltip

/-- Source `CodeMirrorAdapter.handleMouseOver(ev)`: ignore events that are not
over a character or are over the tooltip; outside the visible bounds tear
the hover marker and tooltip down synchronously; otherwise schedule a
debounced hover request unless the position equals the previous
`hoverCharacter`. -/
def handleMouseOver (s : AdapterState) (ev : MouseEventInfo) :
    AdapterState :=
  if !ev.onCharacter || isEventOnTooltip s ev then
    s
  else if !ev.insideVisible then
    removeTooltip (removeHover s)
  else
    let docPosition := ev.docPosition
    let isSame :=
      match s.hoverCharacter with
      | some hc => docPosition.line = hc.line && docPosition.ch = hc.ch
      | none => false
    if !isSame then
      { s with
        hoverCharacter := some docPosition
        hoverRequests := s.hoverRequests ++ [docPosition] }
    else
      s

/-- Identity of each bound handler function created in `_addListeners`
(one per `bind`/`debounce` result). -/
inductive HandlerId where
  | change
  | hover
  | completion
  | signature
  | diagnostic
  | refresh
  | mouseleave
  | scroll
  | mouseover
  | contextmenu
  | clickOutside
  | clickInside
deriving DecidableEq

/-- The listener-related state of one adapter instance: the handlers
actually attached to each event source (`editor.on`, wrapper
`addEventListener`, `connection.on`, `document.addEventListener`), in
registration order as `(event name, handler)` pairs, plus the adapter's
three bookkeeping maps (`editorListeners`, `connectionListeners`,
`documentListeners`) as insertion-ordered `(key, handler)` maps. -/
structure ListenerState where
  options : FilledOptions
  editorHandlers : List (String × HandlerId)
  wrapperHandlers : List (String × HandlerId)
  connHandlers : List (String × HandlerId)
  docHandlers : List (String × HandlerId)
  editorListeners : List (String × HandlerId)
  connectionListeners : List (String × HandlerId)
  documentListeners : List (String × HandlerId)
deriving DecidableEq

/-- Property read `map.key` on a string-keyed object: the stored handler,
or `undefined` (`none`). -/
def lookupListener (m : List (String × HandlerId)) (k : String) :
    Option HandlerId :=
  (m.find? fun p => p.1 = k).map (·.2)

/-- Remove the first occurrence of an exact `(event, handler)` pair. -/
def removeFirstPair (ev : String) (h : HandlerId) :
    List (String × HandlerId) → List (String × HandlerId)
  | [] => []
  | p :: ps =>
    if p = (ev, h) then ps else p :: removeFirstPair ev h ps

/-- Source `source.off(event, handler)` / `removeEventListener(event, handler)`:
detach that handler from that event; passing `undefined` (or a handler
not attached under that event name) detaches nothing. -/
def offHandler (handlers : List (String × HandlerId)) (ev : String)
    (h : Option HandlerId) : List (String × HandlerId) :=
  match h with
  | none => handlers
  | some hid => removeFirstPair ev hid handlers

/-- Source `CodeMirrorAdapter._addListeners()`, in source order: the debounced
`change` listener; the four connection listeners (`highlight` and `goTo`
are commented out in the source); `refresh`; the wrapper `mouseleave` and
`mousemove` listeners; `contextmenu` when the context menu is enabled
(`cursorActivity` is commented out); the document-level `click` listener
stored under the map key `clickOutside`; and the editor `focus` listener
stored under the map key `clickInside` in `documentListeners`. -/
def addListeners (options : FilledOptions) : ListenerState where
  options := options
  editorHandlers :=
    [("change", .change), ("refresh", .refresh), ("scroll", .scroll),
     ("focus", .clickInside)]
  wrapperHandlers :=
    [("mouseleave", .mouseleave), ("mousemove", .mouseover)] ++
      (if options.enableContextMenu then [("contextmenu", .contextmenu)]
       else [])
  connHandlers :=
    [("hover", .hover), ("completion", .completion),
     ("signature", .signature), ("diagnostic", .diagnostic)]
  docHandlers := [("click", .clickOutside)]
  editorListeners :=
    [("change", .change), ("refresh", .refresh),
     ("mouseleave", .mouseleave), ("scroll", .scroll),
     ("mouseover", .mouseover)] ++
      (if options.enableContextMenu then [("contextmenu", .contextmenu)]
       else [])
  connectionListeners :=
    [("hover", .hover), ("completion", .completion),
     ("signature", .signature), ("diagnostic", .diagnostic)]
  documentListeners :=
    [("clickOutside", .clickOutside), ("clickInside", .clickInside)]

/-- The listener-teardown part of `CodeMirrorAdapter.remove()`:
`editor.off('change', …)` and `editor.off('cursorActivity', …)` (the
latter was never registered, so its map lookup is `undefined`); wrapper
`removeEventListener('mousemove', …)` and, when the context menu is
enabled, `('contextmenu', …)`; `connection.off(key, …)` for every key of
`connectionListeners`; and `document.removeEventListener(key, …)` for
every key of `documentListeners` — note the latter passes the map keys
`clickOutside`/`clickInside` as the DOM event names. -/
def removeListeners (s : ListenerState) : ListenerState :=
  let e := offHandler s.editorHandlers "change"
    (lookupListener s.editorListeners "change")
  let e := offHandler e "cursorActivity"
    (lookupListener s.editorListeners "cursorActivity")
  let w := offHandler s.wrapperHandlers "mousemove"
    (lookupListener s.editorListeners "mouseover")
  let w :=
    if s.options.enableContextMenu then
      offHandler w "contextmenu"
        (lookupListener s.editorListeners "contextmenu")
    else
      w
  let c := s.connectionListeners.foldl
    (fun acc kv => offHandler acc kv.1 (some kv.2)) s.connHandlers
  let d := s.documentListeners.foldl
    (fun acc kv => offHandler acc kv.1 (some kv.2)) s.docHandlers
  { s with
    editorHandlers := e
    wrapperHandlers := w
    connHandlers := c
    docHandlers := d }

/-- Key of a diagnostics-tracker entry: its `(start, end)` coordinate
pair. -/
def diagKey (e : ITokenInfo) : IPosition × IPosition := (e.start, e.endPos)

/-- Fixture: a completion item labelled `map`. -/
def mapItem : CompletionItem := { label := "map".toList }

/-- Fixture: the candidate list of the completion-ranking test, with a
server candidate labelled exactly `le` appended. -/
def leCandidates : List CompletionItem :=
  [{ label := "length".toList }, { label := "left".toList },
   { label := "map".toList }, { label := "le".toList }]

/-- Fixture: a diagnostics publication with two diagnostics on the
identical range `[(1,2), (1,5)]` but different messages. -/
def twoDiagResp : PublishDiagnosticsParams where
  uri := "file:///doc".toList
  diagnostics :=
    [{ range := { start := ⟨1, 2⟩, endPos := ⟨1, 5⟩ }, message := "m1" },
     { range := { start := ⟨1, 2⟩, endPos := ⟨1, 5⟩ }, message := "m2" }]

/-- Fixture: an adapter showing a hover marker and a mounted tooltip. -/
def hoverState : AdapterState :=
  { mkAdapter {} with
    hoverMarker := some ⟨⟨0, 0⟩, ⟨0, 3⟩, "CodeMirror-lsp-hover".toList⟩
    tooltip := true }

/-- Fixture: a pointer-move event outside the visible editor bounds whose
resolved position carries no token. -/
def outsideNoCharEvent : MouseEventInfo where
  onCharacter := false
  targetIsTooltip := false
  insideVisible := false
  docPosition := ⟨0, 0⟩

/-- Fixture: a pointer-move event outside the visible editor bounds whose
resolved position is over a token. -/
def outsideOnCharEvent : MouseEventInfo where
  onCharacter := true
  targetIsTooltip := false
  insideVisible := false
  docPosition := ⟨0, 0⟩

/-- Fixture: an adapter with diagnostics disabled that is still showing a
previously published diagnostic. -/
def disabledDiagState : AdapterState :=
  { mkAdapter { enableDiagnostics := some false } with
    markedDiagnostics := [⟨⟨0, 0⟩, ⟨0, 1⟩, "cm-error".toList⟩]
    diagnosticResults := [{ text := ["old"], start := ⟨0, 0⟩, endPos := ⟨0, 1⟩ }]
    gutter := [(0, "old")] }

/-- Fixture: a go-to payload whose single array entry belongs to another
document. -/
def foreignLocArray : GoToInput :=
  .locArray [{ uri := "file:///other".toList
               range := { start := ⟨0, 0⟩, endPos := ⟨0, 1⟩ } }]

/-- Keys of `mergeDiagnosticEntry`: merging either leaves the key list
unchanged (a matching entry existed) or appends the one new key, which
was absent. -/
theorem mergeDiagnosticEntry_keys (st en : IPosition) (msg : String) :
    ∀ l : List ITokenInfo,
      (mergeDiagnosticEntry st en msg l).map diagKey = l.map diagKey ∨
        ((st, en) ∉ l.map diagKey ∧
          (mergeDiagnosticEntry st en msg l).map diagKey =
            l.map diagKey ++ [(st, en)]) := by
  intro l
  induction l with
  | nil =>
    right
    simp [mergeDiagnosticEntry, diagKey]
  | cons r rs ih =>
    by_cases h : r.start = st ∧ r.endPos = en
    · left
      simp [mergeDiagnosticEntry, h.1, h.2, diagKey]
    · have hcond : (r.start = st && r.endPos = en) = false := by
        by_cases h1 : r.start = st
        · by_cases h2 : r.endPos = en
          · exact absurd ⟨h1, h2⟩ h
          · simp [h1, h2]
        · simp [h1]
      have hkey : diagKey r ≠ (st, en) := by
        intro hk
        exact h ⟨congrArg Prod.fst hk, congrArg Prod.snd hk⟩
      rcases ih with h1 | ⟨h2, h3⟩
      · left
        simp [mergeDiagnosticEntry, hcond, h1]
      · right
        constructor
        · intro hm
          rcases List.mem_cons.mp hm with hm | hm
          · exact hkey hm.symm
          · exact h2 hm
        · simp [mergeDiagnosticEntry, hcond, h3]

/-- Merging a diagnostic into the tracker preserves distinctness of the
`(start, end)` keys. -/
theorem mergeDiagnosticEntry_nodup (st en : IPosition) (msg : String)
    (l : List ITokenInfo) (h : (l.map diagKey).Nodup) :
    ((mergeDiagnosticEntry st en msg l).map diagKey).Nodup := by
  rcases mergeDiagnosticEntry_keys st en msg l with h1 | ⟨h2, h3⟩
  · rw [h1]; exact h
  · rw [h3]
    simp [List.nodup_append, h, h2]

/-- The tracker after `addDiagnostic` is exactly the merged tracker (the
gutter branch does not touch it). -/
theorem addDiagnostic_results (s : AdapterState) (d : Diagnostic) :
    (addDiagnostic s d).diagnosticResults =
      mergeDiagnosticEntry (toCmPos d.range.start) (toCmPos d.range.endPos)
        d.message s.diagnosticResults := by
  simp only [addDiagnostic]
  split <;> rfl

/-- Folding a diagnostics list over `addDiagnostic` preserves key
distinctness of the tracker. -/
theorem foldl_addDiagnostic_nodup (ds : List Diagnostic) :
    ∀ s : AdapterState, (s.diagnosticResults.map diagKey).Nodup →
      (((ds.foldl addDiagnostic s).diagnosticResults).map diagKey).Nodup := by
  induction ds with
  | nil => intro s h; exact h
  | cons d ds ih =>
    intro s h
    rw [List.foldl_cons]
    apply ih
    rw [addDiagnostic_results]
    exact mergeDiagnosticEntry_nodup _ _ _ _ h

/-- With diagnostics enabled, `handleDiagnostic` rebuilds the tracker
from scratch, so no two entries share a `(start, end)` pair. -/
theorem handleDiagnostic_nodup (s : AdapterState)
    (resp : PublishDiagnosticsParams)
    (h : s.options.enableDiagnostics = true) :
    (((handleDiagnostic s resp).diagnosticResults).map diagKey).Nodup := by
  unfold handleDiagnostic
  rw [h]
  simp only [Bool.not_true, Bool.false_eq_true, if_false]
  apply foldl_addDiagnostic_nodup
  simp [clearDiagnostics]

/-- C1: the claim states that `remove()` detaches every listener
registered during setup.  Evaluating the teardown on a freshly
constructed listener state shows the opposite: the editor-level
`refresh`, `scroll` and `focus` handlers and the wrapper-level
`mouseleave` handler are still attached, and the document-level `click`
handler survives because `remove()` passes the bookkeeping keys
`clickOutside`/`clickInside` to `document.removeEventListener` instead of
the event names; only the `change`, `mousemove`, `contextmenu` and
connection listeners are detached. -/
theorem claim1_remove_leaves_listeners_attached :
    (removeListeners (addListeners defaultOptions)).editorHandlers =
        [("refresh", .refresh), ("scroll", .scroll),
         ("focus", .clickInside)] ∧
      (removeListeners (addListeners defaultOptions)).wrapperHandlers =
        [("mouseleave", .mouseleave)] ∧
      (removeListeners (addListeners defaultOptions)).connHandlers = [] ∧
      (removeListeners (addListeners defaultOptions)).docHandlers =
        [("click", .clickOutside)] := by
  decide

/-- C2: the claim states that `handleGoTo` completes without scrolling,
without highlighting and without throwing when no location survives the
URI filter.  On a location array whose only entry belongs to another
document the filter leaves an empty array and the source reads
`locations[0].range` of `undefined`, throwing a `TypeError`. -/
theorem claim2_goTo_foreign_locations_throws :
    handleGoTo "file:///doc".toList (mkAdapter {}) foreignLocArray =
      .error "TypeError: locations[0] is undefined" := by
  rfl

/-- C3 counterexample: publishing two diagnostics with identical ranges
does not produce exactly one marked range — `markText` runs once per
diagnostic, so two markers over the same span are pushed. -/
theorem claim3_counterexample_two_marked_ranges :
    ¬((handleDiagnostic (mkAdapter {}) twoDiagResp).markedDiagnostics.length
        = 1) := by
  decide

/-- C3 amended: publishing two diagnostics with identical start and end
positions but different messages produces exactly one tracker entry
whose message list contains both messages, exactly one gutter marker on
that line, but one marked range per diagnostic (two markers over the
identical span); and in general no two tracker entries ever share an
identical `(start, end)` pair. -/
theorem claim3_diagnostic_merge :
    (handleDiagnostic (mkAdapter {}) twoDiagResp).markedDiagnostics.length
        = 2 ∧
      (handleDiagnostic (mkAdapter {}) twoDiagResp).diagnosticResults =
        [{ text := ["m1", "m2"], start := ⟨1, 2⟩, endPos := ⟨1, 5⟩ }] ∧
      (handleDiagnostic (mkAdapter {}) twoDiagResp).gutter = [(1, "m2")] ∧
      ∀ (s : AdapterState) (resp : PublishDiagnosticsParams),
        s.options.enableDiagnostics = true →
        (((handleDiagnostic s resp).diagnosticResults).map diagKey).Nodup := by
  refine ⟨by decide, by decide, by decide, ?_⟩
  intro s resp h
  exact handleDiagnostic_nodup s resp h

/-- Witness for C3: the tracker-key distinctness applied to the concrete
two-diagnostic publication on a default adapter. -/
theorem claim3_diagnostic_merge_witness :
    (mkAdapter {}).options.enableDiagnostics = true ∧
      (((handleDiagnostic (mkAdapter {}) twoDiagResp).diagnosticResults).map
          diagKey).Nodup :=
  ⟨by decide,
   claim3_diagnostic_merge.2.2.2 (mkAdapter {}) twoDiagResp (by decide)⟩

/-- C4: the claim states the extracted token text always ends exactly at
the cursor.  The two examples from the claim hold, but the word-character
branch computes `line.substr(wordStartChar, location.ch)` — `substr`
takes a length, not an end column — so on line `a a b` with the cursor at
`ch = 3` the token is `a b`: it starts at the scan start `ch = 2`,
spans `[2, 3]`, yet its text runs past the cursor. -/
theorem claim4_token_text_overruns_cursor :
    getTokenEndingAtPosition "a.b".toList ⟨0, 3⟩ ['.'] =
        { text := "b".toList, start := ⟨0, 2⟩, endPos := ⟨0, 3⟩ } ∧
      getTokenEndingAtPosition "a.b".toList ⟨0, 2⟩ ['.'] =
        { text := ".".toList, start := ⟨0, 1⟩, endPos := ⟨0, 2⟩ } ∧
      getTokenEndingAtPosition "a a b".toList ⟨0, 3⟩ ['.'] =
        { text := "a b".toList, start := ⟨0, 2⟩, endPos := ⟨0, 3⟩ } ∧
      ¬((getTokenEndingAtPosition "a a b".toList ⟨0, 3⟩ ['.']).text.length =
          3 - 2) := by
  refine ⟨by decide, by decide, by decide, by decide⟩

/-- C5: the claim states the response handlers never throw on malformed
or empty protocol responses.  `handleSignature` on a result object
without a `signatures` field evaluates `!result.signatures.length` and
throws a `TypeError` (and `handleGoTo` throws on a go-to payload whose
locations all belong to other documents, see the C2 theorem). -/
theorem claim5_signature_missing_field_throws :
    handleSignature (mkAdapter {}) (some { signatures := none }) =
      .error "TypeError: undefined signatures has no length" := by
  rfl

/-- C6 counterexample: a pointer-move event outside the visible bounds
that is not over a character is dropped by the first guard of
`handleMouseOver`: the mounted tooltip and the hover marker are left in
place, contradicting the claim that every outside event removes them. -/
theorem claim6_counterexample_outside_event_ignored :
    (handleMouseOver hoverState outsideNoCharEvent).tooltip = true ∧
      (handleMouseOver hoverState outsideNoCharEvent).hoverMarker ≠ none := by
  decide

/-- C6 amended: for a pointer-move event outside the editor's visible
bounds no hover request is ever issued, and when the event is over a
character (and not over the tooltip while the context-menu flag is set)
the hover marker and the tooltip are removed synchronously; an outside
event not over a character leaves the state untouched. -/
theorem claim6_outside_event_behaviour (s : AdapterState)
    (ev : MouseEventInfo) (hout : ev.insideVisible = false) :
    (handleMouseOver s ev).hoverRequests = s.hoverRequests ∧
      (ev.onCharacter = true → isEventOnTooltip s ev = false →
        (handleMouseOver s ev).hoverMarker = none ∧
          (handleMouseOver s ev).tooltip = false) := by
  unfold handleMouseOver
  by_cases hchar : ev.onCharacter = true
  · by_cases htip : isEventOnTooltip s ev = true
    · simp [hchar, htip, hout]
    · simp only [Bool.not_eq_true] at htip
      constructor
      · simp [hchar, htip, hout, removeTooltip, removeHover]
        split <;> rfl
      · intro _ _
        constructor
        · simp [hchar, htip, hout, removeTooltip, removeHover]
          split <;> rfl
        · simp [hchar, htip, hout, removeTooltip, removeHover]
          split <;> simp_all
  · simp only [Bool.not_eq_true] at hchar
    simp [hchar]

/-- Witness for C6: the amended behaviour evaluated on the concrete
hover-showing adapter and an outside, on-character event. -/
theorem claim6_outside_event_behaviour_witness :
    outsideOnCharEvent.insideVisible = false ∧
      (handleMouseOver hoverState outsideOnCharEvent).hoverRequests =
          hoverState.hoverRequests ∧
        (handleMouseOver hoverState outsideOnCharEvent).hoverMarker = none ∧
          (handleMouseOver hoverState outsideOnCharEvent).tooltip = false :=
  ⟨by decide,
   (claim6_outside_event_behaviour hoverState outsideOnCharEvent
       (by decide)).1,
   (claim6_outside_event_behaviour hoverState outsideOnCharEvent
       (by decide)).2 (by decide) (by decide)⟩

/-- C7: filtering the candidates `length`, `left`, `map` (and a server
candidate labelled exactly `le`) against the typed word `le` with
whole-word matching disabled returns exactly the items labelled `length`
and `left`, in an order where prefix matchers precede non-matchers, and
the exact-match candidate `le` is excluded. -/
theorem claim7_completion_ranking :
    getFilteredCompletions "le".toList (some leCandidates) false =
        [{ label := "length".toList }, { label := "left".toList }] ∧
      getFilteredCompletions "le".toList
          (some [{ label := "length".toList }, { label := "left".toList },
                 { label := "map".toList }]) false =
        [{ label := "length".toList }, { label := "left".toList }] := by
  constructor <;> decide

/-- C8 counterexample: for the punctuation prefix `.` with one candidate
present, `_getFilteredCompletions` does not return the empty list. -/
theorem claim8_counterexample_punctuation_not_empty :
    getFilteredCompletions ".".toList (some [mapItem]) false ≠ [] := by
  decide

/-- C8 amended: the first word of any prefix (the leading run of word
characters left by `split(/\W+/)`) never contains a non-word character,
so the punctuation guard never fires; for the prefixes `.` and `(` every
candidate matches the resulting empty word and is returned; the empty
list is returned when the candidate list is absent. -/
theorem claim8_punctuation_behaviour :
    (∀ (w : List Char) (c : Bool), getFilteredCompletions w none c = []) ∧
      (∀ l : List Char, testNonWord (jsFirstWord l) = false) ∧
      getFilteredCompletions ".".toList (some [mapItem]) false = [mapItem] ∧
      getFilteredCompletions "(".toList (some [mapItem]) false = [mapItem] := by
  refine ⟨?_, ?_, by decide, by decide⟩
  · intro w c
    simp [getFilteredCompletions]
  · intro l
    simp only [testNonWord, jsFirstWord, List.any_eq_false]
    intro c hc
    have := List.mem_takeWhile_imp hc
    simp [this]

/-- C9: the hover debounce interval (`quickSuggestionsDelay`) and the
buffer-change debounce interval (`debounceSuggestionsWhileTyping`) are
captured from the filled initial options at construction, and
`updateOptions` never changes the captured intervals. -/
theorem claim9_debounce_intervals_fixed (init next : ITextEditorOptions)
    (s : AdapterState) :
    (mkAdapter init).hoverIntervalMs =
        (getFilledDefaults init).quickSuggestionsDelay ∧
      (mkAdapter init).changeIntervalMs =
        (getFilledDefaults init).debounceSuggestionsWhileTyping ∧
      (updateOptions s next).hoverIntervalMs = s.hoverIntervalMs ∧
      (updateOptions s next).changeIntervalMs = s.changeIntervalMs := by
  refine ⟨rfl, rfl, ?_, ?_⟩ <;>
    · simp only [updateOptions]
      split <;> rfl

/-- C10: when diagnostics are disabled, `handleDiagnostic` leaves the
adapter state — marked ranges, tracker entries, gutter, every mark —
exactly as it was; diagnostics are cleared only by an `updateOptions`
call whose filled options disable them. -/
theorem claim10_diagnostics_disabled_frame (s : AdapterState)
    (resp : PublishDiagnosticsParams) (opts : ITextEditorOptions)
    (h : s.options.enableDiagnostics = false) :
    handleDiagnostic s resp = s ∧
      ((getFilledDefaults opts).enableDiagnostics = false →
        (updateOptions s opts).markedDiagnostics = [] ∧
          (updateOptions s opts).diagnosticResults = [] ∧
          (updateOptions s opts).gutter = []) := by
  constructor
  · unfold handleDiagnostic
    simp [h]
  · intro h2
    simp only [updateOptions]
    simp [h2, clearDiagnostics]

/-- Witness for C10: the frame property evaluated on a disabled adapter
still showing an old diagnostic, the two-diagnostic publication, and an
options update that disables diagnostics. -/
theorem claim10_diagnostics_disabled_frame_witness :
    disabledDiagState.options.enableDiagnostics = false ∧
      handleDiagnostic disabledDiagState twoDiagResp = disabledDiagState ∧
        ((getFilledDefaults { enableDiagnostics := some false
            }).enableDiagnostics = false →
          (updateOptions disabledDiagState { enableDiagnostics := some false
              }).markedDiagnostics = [] ∧
            (updateOptions disabledDiagState { enableDiagnostics := some false
                }).diagnosticResults = [] ∧
              (updateOptions disabledDiagState { enableDiagnostics := some false
                  }).gutter = []) :=
  ⟨by decide,
   claim10_diagnostics_disabled_frame disabledDiagState twoDiagResp
     { enableDiagnostics := some false } (by decide)⟩

end LspCodeMirror
